import Mathlib

/-!
Shallow embedding of the medical-assistant LangGraph workflow (src/main.py).

The graph is: START → check_condition → (handle_emergency | call_model | END)
→ write_memory → END.  The text-generation collaborator (`model.invoke`) is
modelled as a parameter `gen : List Msg → Option String`, where `none` models
a collaborator failure (a raised exception); the durable profile store
(`InMemoryStore`) is modelled as an association list keyed by
(namespace, key) holding a string-to-string mapping, mirroring
`store.get(namespace, key)` / `store.put(namespace, key, value_dict)`.
Uncaught Python exceptions are modelled as `Except.error` outcomes, labelled
by the site at which they are raised.
-/

/-- Message roles, mirroring HumanMessage / SystemMessage / AIMessage. -/
inductive Role where
  | user
  | system
  | assistant
deriving DecidableEq, Repr

/-- One conversation turn: a role plus text content. -/
structure Msg where
  role : Role
  content : String
deriving DecidableEq, Repr

/-- Failure outcomes of one graph invocation, labelled by the code site that
raises them: `invalidState` models the IndexError raised by
`state["messages"][-1]` in check_condition on an empty message list;
`generationFailure` models a collaborator exception escaping `model.invoke`
in call_model; `summaryUpdateFailure` models a collaborator exception
escaping `model.invoke` in write_memory. -/
inductive Err where
  | invalidState
  | generationFailure
  | summaryUpdateFailure
deriving DecidableEq, Repr

/-- The value stored under one (namespace, key) slot: a dict from string
keys to string values, as passed to `store.put`. -/
abbrev StoreVal := List (String × String)

/-- The durable profile store: slots keyed by a two-part namespace and a key,
mirroring `InMemoryStore`. -/
abbrev Store := List ((String × String) × String × StoreVal)

/-- Exact-match lookup in the store, mirroring `store.get(namespace, key)`
returning `None` when absent. -/
def storeGet (st : Store) (ns : String × String) (key : String) : Option StoreVal :=
  match st with
  | [] => none
  | (ns2, k2, v) :: rest =>
      if ns2 = ns ∧ k2 = key then some v else storeGet rest ns key

/-- Replacement write to the store, mirroring `store.put(namespace, key, value)`:
the slot for (namespace, key) is overwritten, other slots are unchanged. -/
def storePut (st : Store) (ns : String × String) (key : String) (v : StoreVal) : Store :=
  match st with
  | [] => [(ns, key, v)]
  | (ns2, k2, v2) :: rest =>
      if ns2 = ns ∧ k2 = key then (ns, key, v) :: rest
      else (ns2, k2, v2) :: storePut rest ns key v

/-- Dict lookup, mirroring Python `dict.get(k)` which yields `None` when the
key is missing. -/
def dictGet (d : StoreVal) (k : String) : Option String :=
  match d with
  | [] => none
  | (k2, v) :: rest => if k2 = k then some v else dictGet rest k

/-- Rendering of an optional string when interpolated into a format string,
mirroring Python `str.format`: `None` renders as the text "None". -/
def pyStr : Option String → String
  | some s => s
  | none => "None"

/-- ASCII lowercasing of a string, mirroring `str.lower()` on the ASCII
inputs this program handles. -/
def lowerStr (s : String) : String := String.mk (s.data.map Char.toLower)

/-- Containment of `sub` as a contiguous segment of a character list. -/
def infixOf (sub : List Char) : List Char → Bool
  | [] => sub.isEmpty
  | c :: rest => sub.isPrefixOf (c :: rest) || infixOf sub rest

/-- Substring containment, mirroring Python `sub in s`. -/
def containsSub (s sub : String) : Bool := infixOf sub.data s.data

/-- The clinic-name configuration constant CLINIC_NAME. -/
def CLINIC_NAME : String := "Good Health Clinic"

/-- The MODEL_SYSTEM_MESSAGE template with {clinic_name} and {history}
interpolated, byte-for-byte as in the source (including the trailing space
after the clinic name sentence). -/
def MODEL_SYSTEM_MESSAGE (clinic_name history : String) : String :=
  "You are a helpful medical assistant for " ++ clinic_name ++ ". \n" ++
  "Use the patient\x27s history to provide relevant, personalized appointment scheduling or advice.\n" ++
  "Patient profile: " ++ history

/-- The UPDATE_PATIENT_PROFILE_INSTRUCTION template with {history}
interpolated, byte-for-byte as in the source. -/
def UPDATE_PATIENT_PROFILE_INSTRUCTION (history : String) : String :=
  "Update the patient\x27s medical/appointment profile with new information.\n\nCURRENT PROFILE:\n" ++
  history ++
  "\n\nANALYZE FOR:\n1. Appointment history (dates, times, no-shows)\n2. Medical preferences or concerns\n3. Previous diagnoses or treatments\n4. Medication usage or allergies\n5. Follow-up needs\n\nFocus on verified appointment and medical details only. Summarize key points clearly.\n\nUpdate the profile based on this conversation:\n"

/-- The static escalation message returned by handle_emergency. -/
def EMERGENCY_TEXT : String :=
  "We’ve detected an emergency. Please contact emergency services immediately or call our 24/7 urgent line: +43 00 00 00."

/-- The routing node check_condition: reads the last message, lowercases its
content, and decides between the two routes; on an empty message list the
`[-1]` access raises (modelled as `Err.invalidState`). -/
def check_condition (msgs : List Msg) : Except Err String :=
  match msgs.getLast? with
  | none => Except.error Err.invalidState
  | some m =>
      if containsSub (lowerStr m.content) "emergency"
      then Except.ok "emergency_route"
      else Except.ok "regular_route"

/-- The handle_emergency node: ignores all of its inputs and returns the fixed
system-message update, with no collaborator involvement (it does not even
receive the collaborator). -/
def handle_emergency (_msgs : List Msg) (_pid : String) (_store : Store) : List Msg :=
  [⟨Role.system, EMERGENCY_TEXT⟩]

/-- The history value computed in call_model: the dict entry
(`None` possible) when a record exists, else the fallback string. -/
def call_model_history (store : Store) (pid : String) : Option String :=
  match storeGet store ("patient_interactions", pid) "patient_data_memory" with
  | some v => dictGet v "patient_data_memory"
  | none => some "No existing patient profile found."

/-- The prompt call_model sends to the collaborator: the formatted system
message followed by the session messages. -/
def call_model_prompt (store : Store) (pid : String) (msgs : List Msg) : List Msg :=
  ⟨Role.system, MODEL_SYSTEM_MESSAGE CLINIC_NAME (pyStr (call_model_history store pid))⟩ :: msgs

/-- The call_model node: invokes the collaborator on its prompt and wraps the
returned text as an assistant-message update; a collaborator failure escapes
as `Err.generationFailure`. -/
def call_model (gen : List Msg → Option String) (store : Store) (pid : String)
    (msgs : List Msg) : Except Err (List Msg) :=
  match gen (call_model_prompt store pid msgs) with
  | none => Except.error Err.generationFailure
  | some r => Except.ok [⟨Role.assistant, r⟩]

/-- The history value computed in write_memory: the dict entry (`None`
possible) when a record exists, else the fallback string. -/
def write_memory_history (store : Store) (pid : String) : Option String :=
  match storeGet store ("patient_interactions", pid) "patient_data_memory" with
  | some v => dictGet v "patient_data_memory"
  | none => some "No existing history."

/-- The prompt write_memory sends to the collaborator: the formatted update
instruction followed by the session messages. -/
def write_memory_prompt (store : Store) (pid : String) (msgs : List Msg) : List Msg :=
  ⟨Role.system, UPDATE_PATIENT_PROFILE_INSTRUCTION (pyStr (write_memory_history store pid))⟩ :: msgs

/-- The write_memory node: invokes the collaborator on its prompt and, on
success, overwrites the profile slot with the dict
containing exactly the returned text; a collaborator failure escapes as
`Err.summaryUpdateFailure` before any store write. -/
def write_memory (gen : List Msg → Option String) (store : Store) (pid : String)
    (msgs : List Msg) : Except Err Store :=
  match gen (write_memory_prompt store pid msgs) with
  | none => Except.error Err.summaryUpdateFailure
  | some s =>
      Except.ok (storePut store ("patient_interactions", pid) "patient_data_memory"
        [("patient_data_memory", s)])

/-- Observable result of one graph invocation: the outcome (the accumulated
messages on success, or the modelled exception), the final store, the list of
prompts sent to the text-generation collaborator in order, and the trace of
executed node names in order. -/
structure RunResult where
  outcome : Except Err (List Msg)
  store : Store
  calls : List (List Msg)
  trace : List String
deriving Repr

/-- Tail of the invocation after a reply has been produced: run write_memory,
recording its collaborator call and node-trace entry. -/
def runFromResponded (gen : List Msg → Option String) (pid : String) (store : Store)
    (msgs1 : List Msg) (calls : List (List Msg)) (trace : List String) : RunResult :=
  let wmPrompt := write_memory_prompt store pid msgs1
  match write_memory gen store pid msgs1 with
  | Except.error e => ⟨Except.error e, store, calls ++ [wmPrompt], trace ++ ["write_memory"]⟩
  | Except.ok store2 => ⟨Except.ok msgs1, store2, calls ++ [wmPrompt], trace ++ ["write_memory"]⟩

/-- One invocation of the compiled graph on an input message list: routes via
check_condition, then runs handle_emergency or call_model (or goes straight
to END on the reserved "end" decision), then write_memory, then END. -/
def runGraph (gen : List Msg → Option String) (pid : String) (store : Store)
    (msgs : List Msg) : RunResult :=
  match check_condition msgs with
  | Except.error e => ⟨Except.error e, store, [], ["check_condition"]⟩
  | Except.ok decision =>
      if decision = "emergency_route" then
        let msgs1 := msgs ++ handle_emergency msgs pid store
        runFromResponded gen pid store msgs1 [] ["check_condition", "handle_emergency"]
      else if decision = "regular_route" then
        let cmPrompt := call_model_prompt store pid msgs
        match call_model gen store pid msgs with
        | Except.error e => ⟨Except.error e, store, [cmPrompt], ["check_condition", "call_model"]⟩
        | Except.ok upd =>
            runFromResponded gen pid store (msgs ++ upd) [cmPrompt]
              ["check_condition", "call_model"]
      else
        ⟨Except.ok msgs, store, [], ["check_condition"]⟩

/-- Collaborator double that always succeeds with a fixed text. -/
def genConst (s : String) : List Msg → Option String := fun _ => some s

/-- Collaborator double that always fails. -/
def genFail : List Msg → Option String := fun _ => none

/-- Collaborator double that succeeds exactly on two-message prompts: with a
one-message session it serves the reply call (system + session = 2 messages)
and fails the later summary call (3 messages). -/
def genOnFirst : List Msg → Option String :=
  fun p => if p.length = 2 then some "the reply" else none

/-- Demonstration store holding a previous profile for patient "1". -/
def demoStore : Store :=
  [(("patient_interactions", "1"), "patient_data_memory",
    [("patient_data_memory", "old profile")])]

/-- Demonstration store holding a record for patient "1" whose value mapping
lacks the key "patient_data_memory". -/
def demoStoreOtherKey : Store :=
  [(("patient_interactions", "1"), "patient_data_memory", [("other", "x")])]

set_option maxRecDepth 100000

/-- Reading back the slot just written by `storePut` yields exactly the value
written. -/
theorem storeGet_storePut (st : Store) (ns : String × String) (key : String) (v : StoreVal) :
    storeGet (storePut st ns key v) ns key = some v := by
  induction st with
  | nil => simp [storePut, storeGet]
  | cons e rest ih =>
      obtain ⟨ns2, k2, v2⟩ := e
      by_cases h : ns2 = ns ∧ k2 = key
      · simp [storePut, storeGet, h]
      · simp [storePut, storeGet, h, ih]

/-- Unfolding of an invocation whose last message triggers the emergency
route: it proceeds to write_memory with the static escalation turn appended
and no collaborator call made yet. -/
theorem run_emergency (gen : List Msg → Option String) (pid : String) (store : Store)
    (msgs : List Msg) (m : Msg) (h : msgs.getLast? = some m)
    (hc : containsSub (lowerStr m.content) "emergency" = true) :
    runGraph gen pid store msgs =
      runFromResponded gen pid store (msgs ++ [⟨Role.system, EMERGENCY_TEXT⟩]) []
        ["check_condition", "handle_emergency"] := by
  unfold runGraph check_condition handle_emergency
  rw [h]
  simp [hc]

/-- Unfolding of an invocation routed to call_model whose reply-generation
call fails: it stops with `generationFailure`, the store untouched, after the
single collaborator call. -/
theorem run_regular_fail (gen : List Msg → Option String) (pid : String) (store : Store)
    (msgs : List Msg) (m : Msg) (h : msgs.getLast? = some m)
    (hc : containsSub (lowerStr m.content) "emergency" = false)
    (hg : gen (call_model_prompt store pid msgs) = none) :
    runGraph gen pid store msgs =
      ⟨Except.error Err.generationFailure, store, [call_model_prompt store pid msgs],
        ["check_condition", "call_model"]⟩ := by
  unfold runGraph check_condition call_model
  rw [h]
  simp [hc, hg]

/-- Unfolding of an invocation routed to call_model whose reply-generation
call succeeds: it proceeds to write_memory with the assistant turn appended
and the reply call recorded. -/
theorem run_regular_ok (gen : List Msg → Option String) (pid : String) (store : Store)
    (msgs : List Msg) (m : Msg) (r : String) (h : msgs.getLast? = some m)
    (hc : containsSub (lowerStr m.content) "emergency" = false)
    (hg : gen (call_model_prompt store pid msgs) = some r) :
    runGraph gen pid store msgs =
      runFromResponded gen pid store (msgs ++ [⟨Role.assistant, r⟩])
        [call_model_prompt store pid msgs] ["check_condition", "call_model"] := by
  unfold runGraph check_condition call_model
  rw [h]
  simp [hc, hg]

/-- Unfolding of the write_memory stage when the summary call fails: the
error escapes, the store is untouched, and the failed call is still an
attempted collaborator call. -/
theorem runFromResponded_fail (gen : List Msg → Option String) (pid : String) (store : Store)
    (msgs1 : List Msg) (calls : List (List Msg)) (trace : List String)
    (hw : gen (write_memory_prompt store pid msgs1) = none) :
    runFromResponded gen pid store msgs1 calls trace =
      ⟨Except.error Err.summaryUpdateFailure, store,
        calls ++ [write_memory_prompt store pid msgs1], trace ++ ["write_memory"]⟩ := by
  unfold runFromResponded write_memory
  rw [hw]

/-- Unfolding of the write_memory stage when the summary call succeeds: the
returned text is written to the profile slot and the accumulated messages are
returned. -/
theorem runFromResponded_ok (gen : List Msg → Option String) (pid : String) (store : Store)
    (msgs1 : List Msg) (calls : List (List Msg)) (trace : List String) (s : String)
    (hw : gen (write_memory_prompt store pid msgs1) = some s) :
    runFromResponded gen pid store msgs1 calls trace =
      ⟨Except.ok msgs1,
        storePut store ("patient_interactions", pid) "patient_data_memory"
          [("patient_data_memory", s)],
        calls ++ [write_memory_prompt store pid msgs1], trace ++ ["write_memory"]⟩ := by
  unfold runFromResponded write_memory
  rw [hw]

/-- Claim C1: for every session state with a non-empty last turn, the router
check_condition returns the emergency route iff the lowercased content of
the last turn contains the substring "emergency", and returns the regular
route otherwise; it is a pure function of the last turn alone (any two
states sharing the last turn route identically). -/
theorem claim_C1 (msgs msgs2 : List Msg) (m : Msg)
    (h : msgs.getLast? = some m) (h2 : msgs2.getLast? = some m) :
    check_condition msgs = check_condition msgs2 ∧
    (check_condition msgs = Except.ok "emergency_route" ↔
      containsSub (lowerStr m.content) "emergency" = true) ∧
    (containsSub (lowerStr m.content) "emergency" = false →
      check_condition msgs = Except.ok "regular_route") := by
  unfold check_condition
  rw [h, h2]
  cases hc : containsSub (lowerStr m.content) "emergency" <;> simp [hc]

/-- Witness for C1 at a concrete state: a last turn shouting EMERGENCY is
routed to the emergency route. -/
theorem claim_C1_witness :
    check_condition [⟨Role.user, "This is an EMERGENCY"⟩] = Except.ok "emergency_route" := by
  have h := claim_C1 [⟨Role.user, "This is an EMERGENCY"⟩]
    [⟨Role.user, "This is an EMERGENCY"⟩] ⟨Role.user, "This is an EMERGENCY"⟩ rfl rfl
  exact h.2.1.mpr (by decide)

/-- Counterexample to C2 as stated: a concrete invocation routed to the
emergency handler (see its trace) nevertheless makes one text-generation
collaborator call, namely the summary call issued by write_memory, so the
emergency route does not avoid the collaborator. -/
theorem claim_C2_counterexample :
    (runGraph (genConst "sum") "1" [] [⟨Role.user, "This is an EMERGENCY"⟩]).trace =
      ["check_condition", "handle_emergency", "write_memory"] ∧
    (runGraph (genConst "sum") "1" [] [⟨Role.user, "This is an EMERGENCY"⟩]).calls.length = 1 :=
  ⟨rfl, rfl⟩

/-- Claim C2 (amended): an invocation routed to the emergency handler makes
exactly one collaborator call (the summary call in write_memory); an
invocation routed to call_model whose reply call succeeds makes exactly two
collaborator calls (the reply call plus the summary call). -/
theorem claim_C2_amended (gen : List Msg → Option String) (pid : String) (store : Store)
    (msgs : List Msg) (m : Msg) (h : msgs.getLast? = some m) :
    (containsSub (lowerStr m.content) "emergency" = true →
      (runGraph gen pid store msgs).calls.length = 1) ∧
    (containsSub (lowerStr m.content) "emergency" = false →
      ∀ r, gen (call_model_prompt store pid msgs) = some r →
        (runGraph gen pid store msgs).calls.length = 2) := by
  constructor
  · intro hc
    rw [run_emergency gen pid store msgs m h hc]
    cases hw : gen (write_memory_prompt store pid (msgs ++ [⟨Role.system, EMERGENCY_TEXT⟩])) with
    | none => rw [runFromResponded_fail gen pid store _ _ _ hw]; rfl
    | some s => rw [runFromResponded_ok gen pid store _ _ _ s hw]; rfl
  · intro hc r hr
    rw [run_regular_ok gen pid store msgs m r h hc hr]
    cases hw : gen (write_memory_prompt store pid (msgs ++ [⟨Role.assistant, r⟩])) with
    | none => rw [runFromResponded_fail gen pid store _ _ _ hw]; rfl
    | some s => rw [runFromResponded_ok gen pid store _ _ _ s hw]; rfl

/-- Witness for the amended C2 at concrete inputs: an emergency invocation
makes exactly one collaborator call and a regular invocation with a
successful reply makes exactly two. -/
theorem claim_C2_amended_witness :
    (runGraph (genConst "sum") "1" [] [⟨Role.user, "this is an emergency"⟩]).calls.length = 1 ∧
    (runGraph (genConst "sum") "1" [] [⟨Role.user, "book a checkup"⟩]).calls.length = 2 := by
  constructor
  · exact (claim_C2_amended (genConst "sum") "1" [] [⟨Role.user, "this is an emergency"⟩]
      ⟨Role.user, "this is an emergency"⟩ rfl).1 (by decide)
  · exact (claim_C2_amended (genConst "sum") "1" [] [⟨Role.user, "book a checkup"⟩]
      ⟨Role.user, "book a checkup"⟩ rfl).2 (by decide) "sum" rfl

/-- Claim C3: if the reply-generation collaborator call fails on a
regular-route invocation, the store is left completely unchanged and the
invocation as a whole fails with the generation failure. -/
theorem claim_C3 (gen : List Msg → Option String) (pid : String) (store : Store)
    (msgs : List Msg) (m : Msg) (h : msgs.getLast? = some m)
    (hreg : containsSub (lowerStr m.content) "emergency" = false)
    (hfail : gen (call_model_prompt store pid msgs) = none) :
    (runGraph gen pid store msgs).store = store ∧
    (runGraph gen pid store msgs).outcome = Except.error Err.generationFailure := by
  rw [run_regular_fail gen pid store msgs m h hreg hfail]
  exact ⟨rfl, rfl⟩

/-- Witness for C3 at a concrete input: with an always-failing collaborator,
a routine request leaves the store empty and fails with the generation
failure. -/
theorem claim_C3_witness :
    (runGraph genFail "1" [] [⟨Role.user, "book a checkup"⟩]).store = [] ∧
    (runGraph genFail "1" [] [⟨Role.user, "book a checkup"⟩]).outcome =
      Except.error Err.generationFailure :=
  claim_C3 genFail "1" [] [⟨Role.user, "book a checkup"⟩]
    ⟨Role.user, "book a checkup"⟩ rfl (by decide) rfl

/-- Counterexample to C4 as stated: a concrete invocation in which the reply
call succeeds and only the summary call fails does not return the reply
successfully — its outcome is the propagated summary failure, not a success. -/
theorem claim_C4_counterexample :
    genOnFirst (call_model_prompt [] "1" [⟨Role.user, "hi"⟩]) = some "the reply" ∧
    (runGraph genOnFirst "1" [] [⟨Role.user, "hi"⟩]).calls.length = 2 ∧
    (runGraph genOnFirst "1" [] [⟨Role.user, "hi"⟩]).outcome =
      Except.error Err.summaryUpdateFailure :=
  ⟨rfl, rfl, rfl⟩

/-- Claim C4 (amended): on either route, if only the summary-update
collaborator call fails, the store (hence the ProfileRecord) is left
unchanged, but the invocation as a whole fails with the summary failure —
the collaborator error propagates instead of being swallowed, so the
already-generated reply is not returned by a successful invocation. -/
theorem claim_C4_amended (gen : List Msg → Option String) (pid : String) (store : Store)
    (msgs : List Msg) (m : Msg) (h : msgs.getLast? = some m) :
    (containsSub (lowerStr m.content) "emergency" = true →
      gen (write_memory_prompt store pid (msgs ++ [⟨Role.system, EMERGENCY_TEXT⟩])) = none →
      (runGraph gen pid store msgs).store = store ∧
      (runGraph gen pid store msgs).outcome = Except.error Err.summaryUpdateFailure) ∧
    (containsSub (lowerStr m.content) "emergency" = false →
      ∀ r, gen (call_model_prompt store pid msgs) = some r →
        gen (write_memory_prompt store pid (msgs ++ [⟨Role.assistant, r⟩])) = none →
        (runGraph gen pid store msgs).store = store ∧
        (runGraph gen pid store msgs).outcome = Except.error Err.summaryUpdateFailure) := by
  constructor
  · intro hc hw
    rw [run_emergency gen pid store msgs m h hc, runFromResponded_fail gen pid store _ _ _ hw]
    exact ⟨rfl, rfl⟩
  · intro hc r hr hw
    rw [run_regular_ok gen pid store msgs m r h hc hr,
      runFromResponded_fail gen pid store _ _ _ hw]
    exact ⟨rfl, rfl⟩

/-- Witness for the amended C4 at a concrete input: a collaborator that
serves only the reply call leaves the store unchanged and the invocation
fails with the summary failure. -/
theorem claim_C4_amended_witness :
    (runGraph genOnFirst "1" [] [⟨Role.user, "hi"⟩]).store = [] ∧
    (runGraph genOnFirst "1" [] [⟨Role.user, "hi"⟩]).outcome =
      Except.error Err.summaryUpdateFailure :=
  (claim_C4_amended genOnFirst "1" [] [⟨Role.user, "hi"⟩] ⟨Role.user, "hi"⟩ rfl).2
    (by decide) "the reply" rfl rfl

/-- Claim C5: for every successful summary-update, write_memory overwrites
the ("patient_interactions", patient_id) profile slot with a mapping holding
exactly the raw text returned by the collaborator, fully replacing the
previous value irrespective of what was stored before. -/
theorem claim_C5 (gen : List Msg → Option String) (store : Store) (pid : String)
    (msgs : List Msg) (s : String)
    (h : gen (write_memory_prompt store pid msgs) = some s) :
    write_memory gen store pid msgs =
      Except.ok (storePut store ("patient_interactions", pid) "patient_data_memory"
        [("patient_data_memory", s)]) ∧
    ∀ store2, write_memory gen store pid msgs = Except.ok store2 →
      storeGet store2 ("patient_interactions", pid) "patient_data_memory" =
        some [("patient_data_memory", s)] := by
  have h1 : write_memory gen store pid msgs =
      Except.ok (storePut store ("patient_interactions", pid) "patient_data_memory"
        [("patient_data_memory", s)]) := by
    unfold write_memory
    rw [h]
  refine ⟨h1, ?_⟩
  intro store2 h2
  have h3 := Except.ok.inj ((h1.symm.trans h2))
  rw [← h3]
  exact storeGet_storePut store ("patient_interactions", pid) "patient_data_memory"
    [("patient_data_memory", s)]

/-- Witness for C5 at a concrete input: over a store holding an old profile
for patient "1", a successful summary call replaces the slot with exactly the
collaborator's text, erasing the old value. -/
theorem claim_C5_witness :
    write_memory (genConst "fresh") demoStore "1" [⟨Role.user, "hi"⟩] =
      Except.ok (storePut demoStore ("patient_interactions", "1") "patient_data_memory"
        [("patient_data_memory", "fresh")]) ∧
    storeGet (storePut demoStore ("patient_interactions", "1") "patient_data_memory"
        [("patient_data_memory", "fresh")]) ("patient_interactions", "1")
        "patient_data_memory" = some [("patient_data_memory", "fresh")] := by
  have h := claim_C5 (genConst "fresh") demoStore "1" [⟨Role.user, "hi"⟩] "fresh" rfl
  exact ⟨h.1, h.2 _ h.1⟩

/-- Claim C6: every invocation that reaches the Responded state — the
emergency handler produced the reply, or call_model did because its
collaborator call succeeded — executes the write_memory node exactly once,
and it is the last node executed before the terminal step. -/
theorem claim_C6 (gen : List Msg → Option String) (pid : String) (store : Store)
    (msgs : List Msg) (m : Msg) (h : msgs.getLast? = some m)
    (hresp : containsSub (lowerStr m.content) "emergency" = true ∨
      ∃ r, gen (call_model_prompt store pid msgs) = some r) :
    (runGraph gen pid store msgs).trace.count "write_memory" = 1 ∧
    (runGraph gen pid store msgs).trace.getLast? = some "write_memory" := by
  cases hc : containsSub (lowerStr m.content) "emergency" with
  | true =>
      rw [run_emergency gen pid store msgs m h hc]
      cases hw : gen (write_memory_prompt store pid (msgs ++ [⟨Role.system, EMERGENCY_TEXT⟩])) with
      | none => rw [runFromResponded_fail gen pid store _ _ _ hw]; exact ⟨rfl, rfl⟩
      | some s => rw [runFromResponded_ok gen pid store _ _ _ s hw]; exact ⟨rfl, rfl⟩
  | false =>
      rcases hresp with hce | ⟨r, hr⟩
      · rw [hc] at hce
        exact absurd hce (by simp)
      · rw [run_regular_ok gen pid store msgs m r h hc hr]
        cases hw : gen (write_memory_prompt store pid (msgs ++ [⟨Role.assistant, r⟩])) with
        | none => rw [runFromResponded_fail gen pid store _ _ _ hw]; exact ⟨rfl, rfl⟩
        | some s => rw [runFromResponded_ok gen pid store _ _ _ s hw]; exact ⟨rfl, rfl⟩

/-- Witness for C6 at concrete inputs: both an emergency invocation and a
regular invocation with a successful reply run write_memory exactly once, as
the final node. -/
theorem claim_C6_witness :
    ((runGraph (genConst "sum") "1" [] [⟨Role.user, "this is an emergency"⟩]).trace.count
      "write_memory" = 1 ∧
    (runGraph (genConst "sum") "1" [] [⟨Role.user, "this is an emergency"⟩]).trace.getLast? =
      some "write_memory") ∧
    ((runGraph (genConst "sum") "1" [] [⟨Role.user, "book a checkup"⟩]).trace.count
      "write_memory" = 1 ∧
    (runGraph (genConst "sum") "1" [] [⟨Role.user, "book a checkup"⟩]).trace.getLast? =
      some "write_memory") := by
  constructor
  · exact claim_C6 (genConst "sum") "1" [] [⟨Role.user, "this is an emergency"⟩]
      ⟨Role.user, "this is an emergency"⟩ rfl (Or.inl (by decide))
  · exact claim_C6 (genConst "sum") "1" [] [⟨Role.user, "book a checkup"⟩]
      ⟨Role.user, "book a checkup"⟩ rfl (Or.inr ⟨"sum", rfl⟩)

/-- Claim C7: when no profile record exists for the patient, call_model's
prompt starts with the system message interpolating the literal fallback
"No existing patient profile found." in the profile position, and
write_memory's prompt starts with the instruction interpolating the literal
fallback "No existing history."; both literals occur in the respective
prompt texts. -/
theorem claim_C7 (store : Store) (pid : String) (msgs : List Msg)
    (habs : storeGet store ("patient_interactions", pid) "patient_data_memory" = none) :
    call_model_prompt store pid msgs =
      ⟨Role.system, MODEL_SYSTEM_MESSAGE CLINIC_NAME "No existing patient profile found."⟩ ::
        msgs ∧
    containsSub (MODEL_SYSTEM_MESSAGE CLINIC_NAME "No existing patient profile found.")
      "No existing patient profile found." = true ∧
    write_memory_prompt store pid msgs =
      ⟨Role.system, UPDATE_PATIENT_PROFILE_INSTRUCTION "No existing history."⟩ :: msgs ∧
    containsSub (UPDATE_PATIENT_PROFILE_INSTRUCTION "No existing history.")
      "No existing history." = true := by
  refine ⟨?_, by decide, ?_, by decide⟩
  · unfold call_model_prompt call_model_history
    rw [habs]
    rfl
  · unfold write_memory_prompt write_memory_history
    rw [habs]
    rfl

/-- Witness for C7 at a concrete input: with an empty store, both prompts
carry their fallback texts. -/
theorem claim_C7_witness :
    call_model_prompt [] "1" [⟨Role.user, "hi"⟩] =
      ⟨Role.system, MODEL_SYSTEM_MESSAGE CLINIC_NAME "No existing patient profile found."⟩ ::
        [⟨Role.user, "hi"⟩] ∧
    write_memory_prompt [] "1" [⟨Role.user, "hi"⟩] =
      ⟨Role.system, UPDATE_PATIENT_PROFILE_INSTRUCTION "No existing history."⟩ ::
        [⟨Role.user, "hi"⟩] := by
  have h := claim_C7 [] "1" [⟨Role.user, "hi"⟩] rfl
  exact ⟨h.1, h.2.2.1⟩

/-- Claim C8: an invocation whose session has zero turns fails with the
invalid-state error (the modelled IndexError from the router's last-message
access) and makes no collaborator call at all. -/
theorem claim_C8 (gen : List Msg → Option String) (pid : String) (store : Store) :
    (runGraph gen pid store []).outcome = Except.error Err.invalidState ∧
    (runGraph gen pid store []).calls = [] :=
  ⟨rfl, rfl⟩

/-- Claim C9: handle_emergency is a deterministic total function — on any two
inputs it returns the same fixed update, namely the single system turn with
the static escalation text, which includes the urgent-line contact channel;
it never receives the collaborator, so it cannot call it and cannot fail. -/
theorem claim_C9 (msgs msgs2 : List Msg) (pid pid2 : String) (store store2 : Store) :
    handle_emergency msgs pid store = handle_emergency msgs2 pid2 store2 ∧
    handle_emergency msgs pid store = [⟨Role.system, EMERGENCY_TEXT⟩] ∧
    containsSub EMERGENCY_TEXT "+43 00 00 00" = true :=
  ⟨rfl, rfl, by decide⟩

/-- Claim C10: when a profile record exists but its value mapping lacks the
key "patient_data_memory", both call_model and write_memory compute the
history value None (rendered as the text "None" in the prompts), and neither
fallback literal appears in the resulting prompt texts — the fallbacks are
reserved for the record-entirely-absent case. -/
theorem claim_C10 (store : Store) (pid : String) (v : StoreVal)
    (hrec : storeGet store ("patient_interactions", pid) "patient_data_memory" = some v)
    (hkey : dictGet v "patient_data_memory" = none) :
    call_model_history store pid = none ∧
    write_memory_history store pid = none ∧
    (∀ msgs, call_model_prompt store pid msgs =
      ⟨Role.system, MODEL_SYSTEM_MESSAGE CLINIC_NAME "None"⟩ :: msgs) ∧
    (∀ msgs, write_memory_prompt store pid msgs =
      ⟨Role.system, UPDATE_PATIENT_PROFILE_INSTRUCTION "None"⟩ :: msgs) ∧
    containsSub (MODEL_SYSTEM_MESSAGE CLINIC_NAME "None")
      "No existing patient profile found." = false ∧
    containsSub (UPDATE_PATIENT_PROFILE_INSTRUCTION "None") "No existing history." = false := by
  have h1 : call_model_history store pid = none := by
    unfold call_model_history
    rw [hrec]
    exact hkey
  have h2 : write_memory_history store pid = none := by
    unfold write_memory_history
    rw [hrec]
    exact hkey
  refine ⟨h1, h2, ?_, ?_, by decide, by decide⟩
  · intro msgs
    unfold call_model_prompt
    rw [h1]
    rfl
  · intro msgs
    unfold write_memory_prompt
    rw [h2]
    rfl

/-- Witness for C10 at a concrete input: a store whose record for patient "1"
holds only an unrelated key makes both histories None and interpolates the
text "None" into both prompts. -/
theorem claim_C10_witness :
    call_model_history demoStoreOtherKey "1" = none ∧
    write_memory_history demoStoreOtherKey "1" = none ∧
    call_model_prompt demoStoreOtherKey "1" [⟨Role.user, "hi"⟩] =
      ⟨Role.system, MODEL_SYSTEM_MESSAGE CLINIC_NAME "None"⟩ :: [⟨Role.user, "hi"⟩] := by
  have h := claim_C10 demoStoreOtherKey "1" [("other", "x")] rfl rfl
  exact ⟨h.1, h.2.1, h.2.2.1 [⟨Role.user, "hi"⟩]⟩
